import Mathlib

/-!
Verification development for the Legal-text renderer: a shallow embedding of
its coordinate services (CoordinateService, the PDF and workspace viewport
stores), the drag-lifecycle store, the PDF selection layer and the workspace
controller, over exact rational arithmetic, together with theorems about the
specified behaviour.
-/

namespace LegalText

/-- A 2-D point with rational coordinates (screen, world or page space). -/
structure Pt where
  x : ℚ
  y : ℚ
deriving DecidableEq, Repr

/-- A DOMRect-like panel rectangle: origin plus extent, all in screen space. -/
structure PanelRect where
  left : ℚ
  top : ℚ
  width : ℚ
  height : ℚ
deriving DecidableEq, Repr

/-- Right edge of a panel rectangle (DOMRect.right). -/
def PanelRect.right (r : PanelRect) : ℚ := r.left + r.width

/-- Bottom edge of a panel rectangle (DOMRect.bottom). -/
def PanelRect.bottom (r : PanelRect) : ℚ := r.top + r.height

/-- Gap between stacked PDF pages in rendered pixels (constant PAGE_GAP). -/
def PAGE_GAP : ℚ := 10

/-- Rendered dimensions of one PDF page. -/
structure PageDim where
  width : ℚ
  height : ℚ
deriving DecidableEq, Repr

/-- Cumulative vertical placement of one PDF page (pageOffsets entry). -/
structure PageOffset where
  top : ℚ
  height : ℚ
deriving DecidableEq, Repr

/-- Lookup in an insertion-ordered association list (JS Map.get). -/
def assocGet {κ α : Type} [DecidableEq κ] (m : List (κ × α)) (k : κ) : Option α :=
  match m with
  | [] => none
  | (k2, v) :: rest => if k2 = k then some v else assocGet rest k

/-- Insert or overwrite in an insertion-ordered association list (JS Map.set):
an existing key keeps its position, a new key is appended. -/
def assocSet {κ α : Type} [DecidableEq κ] (m : List (κ × α)) (k : κ) (v : α) : List (κ × α) :=
  match m with
  | [] => [(k, v)]
  | (k2, v2) :: rest => if k2 = k then (k2, v) :: rest else (k2, v2) :: assocSet rest k v

/-- Remove a key from an association list (JS Map.delete). -/
def assocDelete {κ α : Type} [DecidableEq κ] (m : List (κ × α)) (k : κ) : List (κ × α) :=
  match m with
  | [] => []
  | (k2, v2) :: rest => if k2 = k then rest else (k2, v2) :: assocDelete rest k

/-- Insert a natural number into an ascending list, keeping it sorted. -/
def insertAsc (n : Nat) : List Nat → List Nat
  | [] => [n]
  | m :: rest => if n ≤ m then n :: m :: rest else m :: insertAsc n rest

/-- Ascending insertion sort (models Array.from(keys).sort((a, b) => a - b)). -/
def sortNat : List Nat → List Nat
  | [] => []
  | n :: rest => insertAsc n (sortNat rest)

/-! ## PDF viewport store (pdfViewportStore.ts) -/

/-- State of the PDF viewport store. -/
structure PdfViewport where
  documentId : Option String
  pageDimensions : List (Nat × PageDim)
  originalPageDimensions : List (Nat × PageDim)
  pageOffsets : List (Nat × PageOffset)
  scrollTop : ℚ
  scrollLeft : ℚ
  zoom : ℚ
  panelRect : Option PanelRect
  totalContentHeight : ℚ
deriving DecidableEq, Repr

/-- Initial state of the PDF viewport store. -/
def pdfInitialState : PdfViewport :=
  { documentId := none, pageDimensions := [], originalPageDimensions := [],
    pageOffsets := [], scrollTop := 0, scrollLeft := 0, zoom := 1,
    panelRect := none, totalContentHeight := 0 }

/-- recalculatePageOffsets: rebuild pageOffsets by walking page indices in
ascending order, accumulating height + PAGE_GAP, and set totalContentHeight
to the accumulated value minus the trailing gap. -/
def PdfViewport.recalculatePageOffsets (st : PdfViewport) : PdfViewport :=
  let sortedIndices := sortNat (st.pageDimensions.map Prod.fst)
  let res := sortedIndices.foldl
    (fun (acc : List (Nat × PageOffset) × ℚ) (pageIndex : Nat) =>
      match assocGet st.pageDimensions pageIndex with
      | some dim => (assocSet acc.1 pageIndex ⟨acc.2, dim.height⟩, acc.2 + dim.height + PAGE_GAP)
      | none => acc)
    ([], 0)
  { st with pageOffsets := res.1, totalContentHeight := res.2 - PAGE_GAP }

/-- setPageDimensions: record a page's rendered size, then recalculate offsets. -/
def PdfViewport.setPageDimensions (pageIndex : Nat) (w h : ℚ) (st : PdfViewport) : PdfViewport :=
  PdfViewport.recalculatePageOffsets
    { st with pageDimensions := assocSet st.pageDimensions pageIndex ⟨w, h⟩ }

/-- setScroll on the PDF viewport store. -/
def PdfViewport.setScroll (top left : ℚ) (st : PdfViewport) : PdfViewport :=
  { st with scrollTop := top, scrollLeft := left }

/-- setZoom on the PDF viewport store. -/
def PdfViewport.setZoom (zoom : ℚ) (st : PdfViewport) : PdfViewport :=
  { st with zoom := zoom }

/-- setPanelRect on the PDF viewport store: skip the update when the new rect
is value-equal to the current one. -/
def PdfViewport.setPanelRect (rect : Option PanelRect) (st : PdfViewport) : PdfViewport :=
  match st.panelRect, rect with
  | some current, some r => if current = r then st else { st with panelRect := rect }
  | _, _ => { st with panelRect := rect }

/-- pageToScreen: map a page index plus normalized in-page coordinates to a
screen point, using the precomputed page offset (0 when missing). -/
def PdfViewport.pageToScreen (st : PdfViewport) (pageIndex : Nat) (nx ny : ℚ) : Option Pt :=
  match assocGet st.pageDimensions pageIndex, st.panelRect with
  | some pageDim, some r =>
    let pageTop := (assocGet st.pageOffsets pageIndex).elim 0 PageOffset.top
    let pageX := nx * pageDim.width
    let pageY := ny * pageDim.height
    some ⟨r.left + (pageX - st.scrollLeft) * st.zoom,
          r.top + (pageTop + pageY - st.scrollTop) * st.zoom⟩
  | _, _ => none

/-- The page-finding loop of screenToPage: first pageOffsets entry (in
insertion order) whose dimensioned vertical span contains contentY. -/
def screenToPageLoop (dims : List (Nat × PageDim)) (contentX contentY : ℚ) :
    List (Nat × PageOffset) → Option (Nat × Pt)
  | [] => none
  | (pageIndex, off) :: rest =>
    match assocGet dims pageIndex with
    | none => screenToPageLoop dims contentX contentY rest
    | some dim =>
      if off.top ≤ contentY ∧ contentY < off.top + dim.height then
        some (pageIndex, ⟨contentX, contentY - off.top⟩)
      else screenToPageLoop dims contentX contentY rest

/-- screenToPage: map a screen point to a page index and in-page position,
or none when the panel rect is unset, the point is outside the panel, or no
page contains it. -/
def PdfViewport.screenToPage (st : PdfViewport) (screenX screenY : ℚ) : Option (Nat × Pt) :=
  match st.panelRect with
  | none => none
  | some r =>
    if screenX < r.left ∨ screenX > r.right ∨ screenY < r.top ∨ screenY > r.bottom then none
    else
      let contentX := (screenX - r.left) / st.zoom + st.scrollLeft
      let contentY := (screenY - r.top) / st.zoom + st.scrollTop
      screenToPageLoop st.pageDimensions contentX contentY st.pageOffsets

/-! ## Workspace viewport store (workspaceViewportStore) -/

/-- World-space bounds of the visible viewport (for culling). -/
structure ViewportBounds where
  minX : ℚ
  minY : ℚ
  maxX : ℚ
  maxY : ℚ
deriving DecidableEq, Repr

/-- State of the workspace (canvas) viewport store. -/
structure WorkspaceViewport where
  workspaceId : Option String
  worldX : ℚ
  worldY : ℚ
  scale : ℚ
  panelRect : Option PanelRect
  viewportBounds : Option ViewportBounds
deriving DecidableEq, Repr

/-- Initial state of the workspace viewport store. -/
def wsInitialState : WorkspaceViewport :=
  { workspaceId := none, worldX := 0, worldY := 0, scale := 1,
    panelRect := none, viewportBounds := none }

/-- Store-level worldToScreen helper. -/
def WorkspaceViewport.worldToScreen (st : WorkspaceViewport) (wx wy : ℚ) : Option Pt :=
  match st.panelRect with
  | none => none
  | some r => some ⟨r.left + st.worldX + wx * st.scale, r.top + st.worldY + wy * st.scale⟩

/-- Store-level screenToWorld helper. -/
def WorkspaceViewport.screenToWorld (st : WorkspaceViewport) (sx sy : ℚ) : Option Pt :=
  match st.panelRect with
  | none => none
  | some r => some ⟨(sx - r.left - st.worldX) / st.scale, (sy - r.top - st.worldY) / st.scale⟩

/-- The viewport bounds recomputed from the current transform. -/
def WorkspaceViewport.computeViewportBounds (st : WorkspaceViewport) : Option ViewportBounds :=
  match st.panelRect with
  | none => none
  | some r =>
    match st.screenToWorld r.left r.top, st.screenToWorld r.right r.bottom with
    | some tl, some br => some ⟨tl.x, tl.y, br.x, br.y⟩
    | _, _ => none

/-- updateViewportBounds: refresh the cached world-space viewport bounds. -/
def WorkspaceViewport.updateViewportBounds (st : WorkspaceViewport) : WorkspaceViewport :=
  { st with viewportBounds := st.computeViewportBounds }

/-- setWorldTransform on the workspace viewport store (no clamping). -/
def WorkspaceViewport.setWorldTransform (x y scale : ℚ) (st : WorkspaceViewport) : WorkspaceViewport :=
  WorkspaceViewport.updateViewportBounds { st with worldX := x, worldY := y, scale := scale }

/-- setWorldPosition on the workspace viewport store. -/
def WorkspaceViewport.setWorldPosition (x y : ℚ) (st : WorkspaceViewport) : WorkspaceViewport :=
  WorkspaceViewport.updateViewportBounds { st with worldX := x, worldY := y }

/-- setScale on the workspace viewport store (stores the value as given). -/
def WorkspaceViewport.setScale (scale : ℚ) (st : WorkspaceViewport) : WorkspaceViewport :=
  WorkspaceViewport.updateViewportBounds { st with scale := scale }

/-- setPanelRect on the workspace viewport store: skip the update when the
new rect is value-equal to the current one. -/
def WorkspaceViewport.setPanelRect (rect : Option PanelRect) (st : WorkspaceViewport) : WorkspaceViewport :=
  match st.panelRect, rect with
  | some current, some r =>
    if current = r then st
    else WorkspaceViewport.updateViewportBounds { st with panelRect := rect }
  | _, _ => WorkspaceViewport.updateViewportBounds { st with panelRect := rect }

/-- pan on the workspace viewport store. -/
def WorkspaceViewport.pan (deltaX deltaY : ℚ) (st : WorkspaceViewport) : WorkspaceViewport :=
  WorkspaceViewport.updateViewportBounds
    { st with worldX := st.worldX + deltaX, worldY := st.worldY + deltaY }

/-- zoomAtPoint: multiply the scale by scaleFactor clamped to [0.1, 5] and
shift the world offset so the world point under (screenX, screenY) stays put. -/
def WorkspaceViewport.zoomAtPoint (screenX screenY scaleFactor : ℚ) (st : WorkspaceViewport) :
    WorkspaceViewport :=
  match st.panelRect with
  | none => st
  | some r =>
    match st.screenToWorld screenX screenY with
    | none => st
    | some worldBefore =>
      let newScale := max (1/10) (min 5 (st.scale * scaleFactor))
      let newWorldX := screenX - r.left - worldBefore.x * newScale
      let newWorldY := screenY - r.top - worldBefore.y * newScale
      WorkspaceViewport.updateViewportBounds
        { st with scale := newScale, worldX := newWorldX, worldY := newWorldY }

/-- centerOnPoint: place the given world point at the panel center. -/
def WorkspaceViewport.centerOnPoint (wx wy : ℚ) (st : WorkspaceViewport) : WorkspaceViewport :=
  match st.panelRect with
  | none => st
  | some r =>
    WorkspaceViewport.updateViewportBounds
      { st with worldX := r.width / 2 - wx * st.scale, worldY := r.height / 2 - wy * st.scale }

/-- fitBounds: scale (clamped to [0.1, 5]) and center so the given world
bounds fit the panel with padding; no-op on degenerate bounds. -/
def WorkspaceViewport.fitBounds (bounds : ViewportBounds) (padding : ℚ) (st : WorkspaceViewport) :
    WorkspaceViewport :=
  match st.panelRect with
  | none => st
  | some r =>
    let boundsWidth := bounds.maxX - bounds.minX
    let boundsHeight := bounds.maxY - bounds.minY
    if boundsWidth ≤ 0 ∨ boundsHeight ≤ 0 then st
    else
      let availableWidth := r.width - padding * 2
      let availableHeight := r.height - padding * 2
      let scaleX := availableWidth / boundsWidth
      let scaleY := availableHeight / boundsHeight
      let newScale := max (1/10) (min 5 (min scaleX scaleY))
      let centerX := (bounds.minX + bounds.maxX) / 2
      let centerY := (bounds.minY + bounds.maxY) / 2
      WorkspaceViewport.updateViewportBounds
        { st with scale := newScale,
                  worldX := r.width / 2 - centerX * newScale,
                  worldY := r.height / 2 - centerY * newScale }

/-! ## Coordinate service (CoordinateService.ts) -/

/-- A PDF point as passed to the service: absolute (72-DPI) or normalized
coordinates; the two kinds are told apart by range-checking x and y. -/
structure PdfPointIn where
  documentId : String
  pageIndex : Nat
  x : ℚ
  y : ℚ
deriving DecidableEq, Repr

/-- isNormalizedPDFPoint: both coordinates lie in [0, 1]. -/
def isNormalizedPDFPoint (p : PdfPointIn) : Bool :=
  decide (0 ≤ p.x ∧ p.x ≤ 1 ∧ 0 ≤ p.y ∧ p.y ≤ 1)

/-- Cumulative top offset of a page: sum of height + PAGE_GAP over all
present pages with a smaller index (the service recomputes this inline). -/
def cumulativePageTop (dims : List (Nat × PageDim)) (pageIndex : Nat) : ℚ :=
  (List.range pageIndex).foldl
    (fun acc i =>
      match assocGet dims i with
      | some d => acc + d.height + PAGE_GAP
      | none => acc)
    0

/-- Whether a screen point is inside the PDF panel. -/
def isPointInPdfPanel (pdf : PdfViewport) (p : Pt) : Bool :=
  match pdf.panelRect with
  | none => false
  | some r => decide (r.left ≤ p.x ∧ p.x ≤ r.right ∧ r.top ≤ p.y ∧ p.y ≤ r.bottom)

/-- Whether a screen point is inside the workspace panel. -/
def isPointInWorkspacePanel (ws : WorkspaceViewport) (p : Pt) : Bool :=
  match ws.panelRect with
  | none => false
  | some r => decide (r.left ≤ p.x ∧ p.x ≤ r.right ∧ r.top ≤ p.y ∧ p.y ≤ r.bottom)

/-- The panel kinds known to the service. -/
inductive PanelKind
  | pdf
  | workspace
deriving DecidableEq, Repr

/-- getContainingPanel: PDF panel first, then workspace, else none. -/
def getContainingPanel (pdf : PdfViewport) (ws : WorkspaceViewport) (p : Pt) : Option PanelKind :=
  if isPointInPdfPanel pdf p then some PanelKind.pdf
  else if isPointInWorkspacePanel ws p then some PanelKind.workspace
  else none

namespace CoordinateService

/-- pdfToScreen: PDF (absolute or normalized) coordinates to screen, or none
when the panel rect is unset or the page has no recorded dimensions. -/
def pdfToScreen (pdf : PdfViewport) (point : PdfPointIn) : Option Pt :=
  match pdf.panelRect with
  | none => none
  | some r =>
    match assocGet pdf.pageDimensions point.pageIndex with
    | none => none
    | some pageDim =>
      let pageTop := cumulativePageTop pdf.pageDimensions point.pageIndex
      let pageXY : ℚ × ℚ :=
        if isNormalizedPDFPoint point then
          (point.x * pageDim.width, point.y * pageDim.height)
        else
          let scale := pageDim.width / (pageDim.width / pdf.zoom)
          (point.x * scale, point.y * scale)
      some ⟨r.left + (pageXY.1 - pdf.scrollLeft) * pdf.zoom,
            r.top + (pageTop + pageXY.2 - pdf.scrollTop) * pdf.zoom⟩

/-- The page-search loop of screenToPdf: walk pageDimensions in insertion
order accumulating page bottoms until the span containing panelY is found. -/
def findPageIndexLoop (contentY : ℚ) : ℚ → List (Nat × PageDim) → Option Nat
  | _, [] => none
  | cumulativeTop, (idx, dim) :: rest =>
    let pageBottom := cumulativeTop + dim.height + PAGE_GAP
    if cumulativeTop ≤ contentY ∧ contentY < pageBottom then some idx
    else findPageIndexLoop contentY pageBottom rest

/-- screenToPdf: screen point to PDF coordinates, or none when the panel
rect is unset or the point lies outside the PDF panel (the loop defaults to
page 0 when no page span matches). -/
def screenToPdf (pdf : PdfViewport) (p : Pt) (documentId : String) : Option PdfPointIn :=
  match pdf.panelRect with
  | none => none
  | some r =>
    if isPointInPdfPanel pdf p then
      let panelX := (p.x - r.left) / pdf.zoom + pdf.scrollLeft
      let panelY := (p.y - r.top) / pdf.zoom + pdf.scrollTop
      let pageIndex := (findPageIndexLoop panelY 0 pdf.pageDimensions).getD 0
      match assocGet pdf.pageDimensions pageIndex with
      | none => none
      | some _ =>
        let pageTop := cumulativePageTop pdf.pageDimensions pageIndex
        some ⟨documentId, pageIndex, panelX, panelY - pageTop⟩
    else none

/-- Service-level screenToWorld: requires the workspace panel rect and the
point to be inside the workspace panel. -/
def screenToWorld (ws : WorkspaceViewport) (p : Pt) : Option Pt :=
  match ws.panelRect with
  | none => none
  | some r =>
    if isPointInWorkspacePanel ws p then
      some ⟨(p.x - r.left - ws.worldX) / ws.scale, (p.y - r.top - ws.worldY) / ws.scale⟩
    else none

/-- Service-level worldToScreen. -/
def worldToScreen (ws : WorkspaceViewport) (p : Pt) : Option Pt :=
  match ws.panelRect with
  | none => none
  | some r => some ⟨p.x * ws.scale + ws.worldX + r.left, p.y * ws.scale + ws.worldY + r.top⟩

/-- pdfToWorld: PDF coordinates to world coordinates through the screen,
requiring both the PDF panel rect (via pdfToScreen) and the workspace one. -/
def pdfToWorld (pdf : PdfViewport) (ws : WorkspaceViewport) (point : PdfPointIn) : Option Pt :=
  match pdfToScreen pdf point with
  | none => none
  | some sp =>
    match ws.panelRect with
    | none => none
    | some r =>
      some ⟨(sp.x - r.left - ws.worldX) / ws.scale, (sp.y - r.top - ws.worldY) / ws.scale⟩

end CoordinateService

/-! ## Anchors and link endpoints -/

/-- A normalized (0-1) rectangle on a PDF page. -/
structure NormalizedRect where
  x : ℚ
  y : ℚ
  w : ℚ
  h : ℚ
deriving DecidableEq, Repr

/-- Connection side for a canvas-object anchor. -/
inductive ConnectionPoint
  | left
  | right
  | top
  | bottom
  | center
deriving DecidableEq, Repr

/-- The anchor kinds resolvable by the service. -/
inductive Anchor
  | pdfRegion (documentId : String) (pageIndex : Nat) (rect : NormalizedRect)
  | pdfText (documentId : String) (pageIndex : Nat) (boundingRects : List NormalizedRect)
  | canvasObject (objectId : String) (connectionPoint : ConnectionPoint)
  | canvasPoint (point : Pt)
deriving DecidableEq, Repr

/-- Width and height of a registered canvas object. -/
structure ObjSize where
  width : ℚ
  height : ℚ
deriving DecidableEq, Repr

/-- A registered canvas object: world position plus size. -/
structure CanvasObjEntry where
  position : Pt
  size : ObjSize
deriving DecidableEq, Repr

/-- pdfRegionAnchorToScreen: the selection's center-right point on screen,
or none when page dimensions or the PDF panel rect are missing. -/
def pdfRegionAnchorToScreen (pdf : PdfViewport) (pageIndex : Nat) (rect : NormalizedRect) :
    Option Pt :=
  match assocGet pdf.pageDimensions pageIndex, pdf.panelRect with
  | some pageDim, some r =>
    let pageTop := cumulativePageTop pdf.pageDimensions pageIndex
    let pageX := (rect.x + rect.w) * pageDim.width
    let pageY := (rect.y + rect.h / 2) * pageDim.height
    some ⟨r.left + (pageX - pdf.scrollLeft) * pdf.zoom,
          r.top + (pageTop + pageY - pdf.scrollTop) * pdf.zoom⟩
  | _, _ => none

/-- canvasObjectAnchorToScreen: connection point of a registered object,
projected to screen; none when the object is not registered. -/
def canvasObjectAnchorToScreen (ws : WorkspaceViewport) (objs : List (String × CanvasObjEntry))
    (objectId : String) (cp : ConnectionPoint) : Option Pt :=
  match assocGet objs objectId with
  | none => none
  | some obj =>
    let halfW := obj.size.width / 2
    let halfH := obj.size.height / 2
    let wp : Pt :=
      match cp with
      | ConnectionPoint.left => ⟨obj.position.x - halfW, obj.position.y⟩
      | ConnectionPoint.right => ⟨obj.position.x + halfW, obj.position.y⟩
      | ConnectionPoint.top => ⟨obj.position.x, obj.position.y - halfH⟩
      | ConnectionPoint.bottom => ⟨obj.position.x, obj.position.y + halfH⟩
      | ConnectionPoint.center => obj.position
    CoordinateService.worldToScreen ws wp

/-- anchorToScreen: resolve any anchor kind to a screen point on demand. -/
def anchorToScreen (pdf : PdfViewport) (ws : WorkspaceViewport)
    (objs : List (String × CanvasObjEntry)) : Anchor → Option Pt
  | Anchor.pdfRegion _ pageIndex rect => pdfRegionAnchorToScreen pdf pageIndex rect
  | Anchor.pdfText _ pageIndex rects =>
    match rects.head? with
    | some firstRect => pdfRegionAnchorToScreen pdf pageIndex firstRect
    | none => none
  | Anchor.canvasObject objectId cp => canvasObjectAnchorToScreen ws objs objectId cp
  | Anchor.canvasPoint p => CoordinateService.worldToScreen ws p

/-- A screen rectangle with visibility flags. -/
structure ScreenRect where
  x : ℚ
  y : ℚ
  width : ℚ
  height : ℚ
  isFullyVisible : Bool
  isPartiallyVisible : Bool
deriving DecidableEq, Repr

/-- A world-space rectangle. -/
structure WorldRect where
  x : ℚ
  y : ℚ
  width : ℚ
  height : ℚ
deriving DecidableEq, Repr

/-- Input of pdfRectToScreen: an absolute PDF rect or a normalized one. -/
inductive PdfRectInput
  | absolute (documentId : String) (pageIndex : Nat) (x y width height : ℚ)
  | normalized (documentId : String) (pageIndex : Nat) (rect : NormalizedRect)
deriving DecidableEq, Repr

/-- Page index of a pdfRectToScreen input. -/
def PdfRectInput.pageIndex : PdfRectInput → Nat
  | PdfRectInput.absolute _ pageIndex _ _ _ _ => pageIndex
  | PdfRectInput.normalized _ pageIndex _ => pageIndex

namespace CoordinateService

/-- pdfRectToScreen: a PDF rectangle to screen with visibility flags, or
none when page dimensions or the panel rect are missing. -/
def pdfRectToScreen (pdf : PdfViewport) (input : PdfRectInput) : Option ScreenRect :=
  match assocGet pdf.pageDimensions input.pageIndex, pdf.panelRect with
  | some pageDim, some r =>
    let xywh : ℚ × ℚ × ℚ × ℚ :=
      match input with
      | PdfRectInput.normalized _ _ rect =>
        (rect.x * pageDim.width, rect.y * pageDim.height,
         rect.w * pageDim.width, rect.h * pageDim.height)
      | PdfRectInput.absolute _ _ x y width height => (x, y, width, height)
    let pageTop := cumulativePageTop pdf.pageDimensions input.pageIndex
    let screenX := r.left + (xywh.1 - pdf.scrollLeft) * pdf.zoom
    let screenY := r.top + (pageTop + xywh.2.1 - pdf.scrollTop) * pdf.zoom
    let screenWidth := xywh.2.2.1 * pdf.zoom
    let screenHeight := xywh.2.2.2 * pdf.zoom
    some { x := screenX, y := screenY, width := screenWidth, height := screenHeight,
           isFullyVisible := decide (screenX ≥ r.left ∧ screenY ≥ r.top ∧
             screenX + screenWidth ≤ r.right ∧ screenY + screenHeight ≤ r.bottom),
           isPartiallyVisible := decide (screenX + screenWidth ≥ r.left ∧
             screenY + screenHeight ≥ r.top ∧ screenX ≤ r.right ∧ screenY ≤ r.bottom) }
  | _, _ => none

/-- worldRectToScreen: a world rectangle to screen with visibility flags. -/
def worldRectToScreen (ws : WorkspaceViewport) (rect : WorldRect) : Option ScreenRect :=
  match ws.panelRect with
  | none => none
  | some r =>
    let screenX := rect.x * ws.scale + ws.worldX + r.left
    let screenY := rect.y * ws.scale + ws.worldY + r.top
    let screenWidth := rect.width * ws.scale
    let screenHeight := rect.height * ws.scale
    some { x := screenX, y := screenY, width := screenWidth, height := screenHeight,
           isFullyVisible := decide (screenX ≥ r.left ∧ screenY ≥ r.top ∧
             screenX + screenWidth ≤ r.right ∧ screenY + screenHeight ≤ r.bottom),
           isPartiallyVisible := decide (screenX + screenWidth ≥ r.left ∧
             screenY + screenHeight ≥ r.top ∧ screenX ≤ r.right ∧ screenY ≤ r.bottom) }

end CoordinateService

/-- Screen endpoints computed for a link. -/
structure LinkEndpoints where
  source : Pt
  target : Pt
  isVisible : Bool
  sourceInPanel : Bool
  targetInPanel : Bool
deriving DecidableEq, Repr

/-- A link between two anchors. -/
structure Link where
  id : String
  sourceAnchor : Anchor
  targetAnchor : Anchor
deriving DecidableEq, Repr

/-- calculateLinkEndpoints: resolve both anchors; unresolved ends fall back
to the off-screen sentinel (-1000, -1000); visible only when both resolve;
panel membership is reported per end over both known panels. -/
def CoordinateService.calculateLinkEndpoints (pdf : PdfViewport) (ws : WorkspaceViewport)
    (objs : List (String × CanvasObjEntry)) (link : Link) : LinkEndpoints :=
  let sourceScreen := anchorToScreen pdf ws objs link.sourceAnchor
  let targetScreen := anchorToScreen pdf ws objs link.targetAnchor
  { source :=
      match sourceScreen with
      | some p => p
      | none => ⟨-1000, -1000⟩
    target :=
      match targetScreen with
      | some p => p
      | none => ⟨-1000, -1000⟩
    isVisible :=
      match sourceScreen, targetScreen with
      | some _, some _ => true
      | _, _ => false
    sourceInPanel :=
      match sourceScreen with
      | some p => isPointInPdfPanel pdf p || isPointInWorkspacePanel ws p
      | none => false
    targetInPanel :=
      match targetScreen with
      | some p => isPointInPdfPanel pdf p || isPointInWorkspacePanel ws p
      | none => false }

/-! ## Coordinate service mutable state: registry, dirty set, cache -/

/-- The mutable per-instance state of the coordinate service. -/
structure CoordState where
  dirtyLinks : List String
  linkEndpointsCache : List (String × LinkEndpoints)
  canvasObjects : List (String × CanvasObjEntry)
  frameRequested : Bool
deriving DecidableEq, Repr

/-- Add an element to a set modelled as a duplicate-free list (JS Set.add). -/
def setInsert (s : List String) (x : String) : List String :=
  if x ∈ s then s else s ++ [x]

/-- scheduleUpdate: request an animation frame (idempotent); the deferred
batch processing itself runs in that later frame, not here. -/
def CoordState.scheduleUpdate (st : CoordState) : CoordState :=
  { st with frameRequested := true }

/-- markAllLinksDirty: add every link id from the link store to the dirty
set and schedule a batch update. -/
def CoordState.markAllLinksDirty (links : List String) (st : CoordState) : CoordState :=
  CoordState.scheduleUpdate { st with dirtyLinks := links.foldl setInsert st.dirtyLinks }

/-- markLinkDirty: add one link id to the dirty set and schedule an update. -/
def CoordState.markLinkDirty (linkId : String) (st : CoordState) : CoordState :=
  CoordState.scheduleUpdate { st with dirtyLinks := setInsert st.dirtyLinks linkId }

/-- registerCanvasObject: record an object in the registry. -/
def CoordState.registerCanvasObject (id : String) (position : Pt) (size : ObjSize)
    (st : CoordState) : CoordState :=
  { st with canvasObjects := assocSet st.canvasObjects id ⟨position, size⟩ }

/-- updateCanvasObjectPosition: when the id is registered, move the object
and mark all links dirty; otherwise do nothing. -/
def CoordState.updateCanvasObjectPosition (id : String) (position : Pt) (links : List String)
    (st : CoordState) : CoordState :=
  match assocGet st.canvasObjects id with
  | some obj =>
    CoordState.markAllLinksDirty links
      { st with canvasObjects := assocSet st.canvasObjects id { obj with position := position } }
  | none => st

/-- unregisterCanvasObject: drop an object from the registry. -/
def CoordState.unregisterCanvasObject (id : String) (st : CoordState) : CoordState :=
  { st with canvasObjects := assocDelete st.canvasObjects id }

/-! ## Drag lifecycle store (dragController) -/

/-- Phases of the drag lifecycle. -/
inductive DragPhase
  | idle
  | selecting
  | ready
  | dragging
  | dropping
deriving DecidableEq, Repr

/-- A screen rectangle given as origin plus size (the ghost geometry). -/
structure RectWH where
  x : ℚ
  y : ℚ
  width : ℚ
  height : ℚ
deriving DecidableEq, Repr

/-- The captured drag source (PDF selection data). -/
structure DragSource where
  documentId : String
  pageIndex : Nat
  rect : NormalizedRect
  text : Option String
  screenRect : RectWH
deriving DecidableEq, Repr

/-- Drop-target information tracked while dragging. -/
structure DropTarget where
  panel : Option PanelKind
  worldPosition : Option Pt
  isValid : Bool
deriving DecidableEq, Repr

/-- Full state of the drag-controller store. -/
structure DragState where
  phase : DragPhase
  source : Option DragSource
  pointerPosition : Option Pt
  sourceAnchor : Option Pt
  dropTarget : DropTarget
  ghostOpacity : ℚ
  linkProgress : ℚ
deriving DecidableEq, Repr

/-- The drag controller's initial state. -/
def dragInitialState : DragState :=
  { phase := DragPhase.idle, source := none, pointerPosition := none, sourceAnchor := none,
    dropTarget := { panel := none, worldPosition := none, isValid := false },
    ghostOpacity := 0, linkProgress := 0 }

/-- reset: return to the initial state, clearing every transient field. -/
def DragState.reset (_ : DragState) : DragState := dragInitialState

/-- startSelection: move to the selecting phase with a zero-size rect at the
start point (no guard on the current phase). -/
def DragState.startSelection (documentId : String) (pageIndex : Nat) (startPoint : Pt)
    (st : DragState) : DragState :=
  { st with phase := DragPhase.selecting,
            source := some { documentId := documentId, pageIndex := pageIndex,
                             rect := ⟨startPoint.x, startPoint.y, 0, 0⟩,
                             text := none, screenRect := ⟨0, 0, 0, 0⟩ } }

/-- updateSelection: while selecting, grow the normalized rect toward the
current point (handling negative spans); otherwise do nothing. -/
def DragState.updateSelection (currentPoint : Pt) (_pageWidth _pageHeight : ℚ)
    (st : DragState) : DragState :=
  match st.source with
  | none => st
  | some src =>
    if st.phase = DragPhase.selecting then
      let startX := src.rect.x
      let startY := src.rect.y
      { st with source := some { src with rect :=
          ⟨min startX currentPoint.x, min startY currentPoint.y,
           |currentPoint.x - startX|, |currentPoint.y - startY|⟩ } }
    else st

/-- completeSelection: with a source present, unconditionally enter the
ready phase, record rect, screen rect and optional text, and fix the source
anchor at the selection's right-center (no size threshold is checked here). -/
def DragState.completeSelection (rect : NormalizedRect) (screenRect : RectWH)
    (text : Option String) (st : DragState) : DragState :=
  match st.source with
  | none => st
  | some src =>
    { st with
        phase := DragPhase.ready
        source := some { src with
          rect := rect
          screenRect := screenRect
          text := (match text with | some t => some t | none => src.text) }
        sourceAnchor := some ⟨screenRect.x + screenRect.width,
                              screenRect.y + screenRect.height / 2⟩ }

/-- startDrag: from ready with a source, enter the dragging phase (the
requestAnimationFrame loop that ramps linkProgress is animation-only). -/
def DragState.startDrag (pointerPos : Pt) (st : DragState) : DragState :=
  if st.phase = DragPhase.ready then
    match st.source with
    | none => st
    | some _ =>
      { st with phase := DragPhase.dragging, pointerPosition := some pointerPos,
                ghostOpacity := 8/10, linkProgress := 0 }
  else st

/-- updateDrag: while dragging, track the pointer and recompute the drop
target from the containing panel and the world position under the pointer. -/
def DragState.updateDrag (pdf : PdfViewport) (ws : WorkspaceViewport) (pointerPos : Pt)
    (st : DragState) : DragState :=
  if st.phase = DragPhase.dragging then
    let panel := getContainingPanel pdf ws pointerPos
    let isOverWorkspace : Bool := panel = some PanelKind.workspace
    let worldPosition :=
      if isOverWorkspace then CoordinateService.screenToWorld ws pointerPos else none
    { st with pointerPosition := some pointerPos,
              dropTarget := { panel := if isOverWorkspace then some PanelKind.workspace else none,
                              worldPosition := worldPosition,
                              isValid := isOverWorkspace && worldPosition.isSome },
              ghostOpacity := if isOverWorkspace then 95/100 else 7/10 }
  else st

/-- completeDrag: when dragging with a source and a valid drop target,
return the source and enter the dropping phase (a delayed reset follows the
drop animation); in every other case reset immediately and return none. -/
def DragState.completeDrag (st : DragState) : Option DragSource × DragState :=
  match st.phase, st.source with
  | DragPhase.dragging, some src =>
    if st.dropTarget.isValid then
      (some src, { st with phase := DragPhase.dropping, ghostOpacity := 0 })
    else (none, st.reset)
  | _, _ => (none, st.reset)

/-- cancelDrag, immediate effect: fade the ghost; the reset itself is
deferred behind a short timeout. -/
def DragState.cancelDragImmediate (st : DragState) : DragState :=
  { st with ghostOpacity := 0 }

/-- cancelDrag, state after the deferred reset has fired. -/
def DragState.cancelDragFinal (st : DragState) : DragState :=
  st.cancelDragImmediate.reset

/-! ## Selection layer (SelectionLayer component) -/

/-- Local component state of the SelectionLayer. -/
structure SelectionLayerState where
  isSelecting : Bool
  selectionStart : Option Pt
  selectionRect : Option NormalizedRect
  completedSelection : Option (NormalizedRect × RectWH)
deriving DecidableEq, Repr

/-- handleMouseDown: ignore non-primary buttons and any event while the drag
phase is dragging; otherwise clear previous state, reset the drag store and
start a new selection at the normalized event position. -/
def handleMouseDown (button : Nat) (layerRect : Option PanelRect) (documentId : String)
    (pageIndex : Nat) (clientX clientY width height : ℚ)
    (ls : SelectionLayerState) (st : DragState) : SelectionLayerState × DragState :=
  if button ≠ 0 then (ls, st)
  else if st.phase = DragPhase.dragging then (ls, st)
  else
    match layerRect with
    | none => (ls, st)
    | some rect =>
      let x := (clientX - rect.left) / width
      let y := (clientY - rect.top) / height
      ({ isSelecting := true, selectionStart := some ⟨x, y⟩,
         selectionRect := some ⟨x, y, 0, 0⟩, completedSelection := none },
       DragState.startSelection documentId pageIndex ⟨x, y⟩ st.reset)

/-- handleMouseUp: finish a selection; a rect below the 1% minimum size in
either axis is discarded without touching the drag store, otherwise the
screen rect is computed and completeSelection is invoked. -/
def handleMouseUp (layerRect : Option PanelRect) (width height : ℚ)
    (ls : SelectionLayerState) (st : DragState) : SelectionLayerState × DragState :=
  match ls.isSelecting, ls.selectionRect with
  | false, _ => ({ ls with isSelecting := false }, st)
  | true, none => ({ ls with isSelecting := false }, st)
  | true, some selRect =>
    if selRect.w < 1/100 ∨ selRect.h < 1/100 then
      ({ ls with isSelecting := false, selectionRect := none }, st)
    else
      match layerRect with
      | none => (ls, st)
      | some rect =>
        let screenRect : RectWH :=
          ⟨rect.left + selRect.x * width, rect.top + selRect.y * height,
           selRect.w * width, selRect.h * height⟩
        ({ ls with isSelecting := false, completedSelection := some (selRect, screenRect) },
         DragState.completeSelection selRect screenRect (some "Selected text") st)

/-- An excerpt as created on drop (source selection plus world position). -/
structure Excerpt where
  documentId : String
  pageIndex : Nat
  rect : NormalizedRect
  text : Option String
  position : Pt
deriving DecidableEq, Repr

/-- handleEnd of the drag-handle flow: complete the drag; only when it hands
back a source and the drop target still has a world position is an excerpt
created. -/
def handleEnd (st : DragState) : Option Excerpt × DragState :=
  let r := st.completeDrag
  match r.1 with
  | some result =>
    match r.2.dropTarget.worldPosition with
    | some wp =>
      (some { documentId := result.documentId, pageIndex := result.pageIndex,
              rect := result.rect, text := result.text, position := wp }, r.2)
    | none => (none, r.2)
  | none => (none, r.2)

/-! ## Workspace controller (WorkspaceController) -/

/-- The PixiJS world container as the controller sees it. -/
structure WorldContainer where
  x : ℚ
  y : ℚ
  containerScale : ℚ
deriving DecidableEq, Repr

/-- Controller state relevant to zooming. -/
structure WorkspaceControllerState where
  world : Option WorldContainer
  scale : ℚ
deriving DecidableEq, Repr

/-- WorkspaceController.zoom: multiply the scale by delta clamped to
[0.1, 10]; when a mouse position is given, shift the world container so the
world point under the cursor stays put. -/
def WorkspaceControllerState.zoom (delta : ℚ) (mouse : Option Pt)
    (st : WorkspaceControllerState) : WorkspaceControllerState :=
  match st.world with
  | none => st
  | some w =>
    let oldScale := st.scale
    let newScale := min (max (st.scale * delta) (1/10)) 10
    match mouse with
    | some m =>
      let worldPosX := (m.x - w.x) / oldScale
      let worldPosY := (m.y - w.y) / oldScale
      { world := some ⟨m.x - worldPosX * newScale, m.y - worldPosY * newScale, newScale⟩,
        scale := newScale }
    | none => { world := some { w with containerScale := newScale }, scale := newScale }

/-! ## Concrete example states for witnesses and counterexamples -/

/-- A workspace viewport with a set panel rect and a non-unit transform. -/
def wsExample : WorkspaceViewport :=
  { workspaceId := none, worldX := 3, worldY := 4, scale := 2,
    panelRect := some ⟨0, 0, 100, 100⟩, viewportBounds := none }

/-- A screen point inside wsExample's panel. -/
def ptExample : Pt := ⟨10, 20⟩

/-- A drag store mid-selection: the state right after startSelection. -/
def dragSelectingExample : DragState :=
  { dragInitialState with
      phase := DragPhase.selecting
      source := some { documentId := "doc-1", pageIndex := 0,
                       rect := ⟨1/10, 1/10, 0, 0⟩, text := none,
                       screenRect := ⟨0, 0, 0, 0⟩ } }

/-- A drag store mid-drag over no panel: dragging with an invalid target. -/
def dragDraggingExample : DragState :=
  { phase := DragPhase.dragging
    source := some { documentId := "doc-1", pageIndex := 0,
                     rect := ⟨1/10, 1/10, 1/5, 1/5⟩, text := some "Selected text",
                     screenRect := ⟨100, 100, 200, 200⟩ }
    pointerPosition := some ⟨300, 300⟩
    sourceAnchor := some ⟨300, 200⟩
    dropTarget := { panel := none, worldPosition := none, isValid := false }
    ghostOpacity := 7/10
    linkProgress := 1 }

/-- SelectionLayer state holding the spec scenario's below-threshold rect. -/
def selLayerExample : SelectionLayerState :=
  { isSelecting := true, selectionStart := some ⟨1/10, 1/10⟩,
    selectionRect := some ⟨1/10, 1/10, 1/200, 1/200⟩, completedSelection := none }

/-- A controller whose world container is initialized. -/
def controllerExample : WorkspaceControllerState :=
  { world := some ⟨0, 0, 1⟩, scale := 1 }

/-- The PDF viewport of the pageToScreen scenario: page 0 of height 800 and
page 1 of height 600 registered, panel rect at the origin, zoom 1, no
scroll. -/
def pdfScenarioC8 : PdfViewport :=
  PdfViewport.setPanelRect (some ⟨0, 0, 400, 600⟩)
    (PdfViewport.setPageDimensions 1 600 600
      (PdfViewport.setPageDimensions 0 600 800 pdfInitialState))

/-! ## Theorems -/

/-- Claim C1: for every screen point p inside the workspace panel, in any
workspace viewport state with panelRect set and nonzero scale, composing the
service's screenToWorld with worldToScreen returns p exactly (over exact
rational arithmetic). -/
theorem C1_screen_world_roundtrip (ws : WorkspaceViewport) (r : PanelRect) (p : Pt)
    (hrect : ws.panelRect = some r) (hscale : ws.scale ≠ 0)
    (hin : isPointInWorkspacePanel ws p = true) :
    (CoordinateService.screenToWorld ws p).bind (CoordinateService.worldToScreen ws) = some p := by
  obtain ⟨px, py⟩ := p
  simp only [CoordinateService.screenToWorld, CoordinateService.worldToScreen, hrect, hin,
    if_true, Option.some_bind, Option.some.injEq, Pt.mk.injEq]
  constructor <;> field_simp

/-- Witness for claim C1 at a concrete viewport and point. -/
theorem C1_witness :
    (CoordinateService.screenToWorld wsExample ptExample).bind
      (CoordinateService.worldToScreen wsExample) = some ptExample :=
  C1_screen_world_roundtrip wsExample ⟨0, 0, 100, 100⟩ ptExample rfl (by decide)
    (by norm_num [isPointInWorkspacePanel, wsExample, ptExample, PanelRect.right,
      PanelRect.bottom])

/-- Claim C2: for every workspace viewport state with panelRect set, every
screen point and every zoom factor, zoomAtPoint keeps the world point under
that screen point unchanged: screenToWorld after the zoom equals
screenToWorld before it, including when the new scale is clamped. -/
theorem C2_zoom_point_invariant (ws : WorkspaceViewport) (r : PanelRect) (screenX screenY f : ℚ)
    (hrect : ws.panelRect = some r) :
    (ws.zoomAtPoint screenX screenY f).screenToWorld screenX screenY =
      ws.screenToWorld screenX screenY := by
  have hns : (0 : ℚ) < max (1/10) (min 5 (ws.scale * f)) :=
    lt_of_lt_of_le (by norm_num) (le_max_left _ _)
  simp only [WorkspaceViewport.zoomAtPoint, WorkspaceViewport.screenToWorld, hrect,
    WorkspaceViewport.updateViewportBounds, Option.some.injEq, Pt.mk.injEq]
  constructor
  · generalize (screenX - r.left - ws.worldX) / ws.scale = a
    rw [div_eq_iff (ne_of_gt hns)]
    ring
  · generalize (screenY - r.top - ws.worldY) / ws.scale = b
    rw [div_eq_iff (ne_of_gt hns)]
    ring

/-- Witness for claim C2 at a concrete viewport, point and factor. -/
theorem C2_witness :
    (wsExample.zoomAtPoint 50 60 3).screenToWorld 50 60 = wsExample.screenToWorld 50 60 :=
  C2_zoom_point_invariant wsExample ⟨0, 0, 100, 100⟩ 50 60 3 rfl

/-- Claim C3, counterexample: on the spec's own scenario rect
(0.1, 0.1, 0.005, 0.005), invoking completeSelection itself (from a
selecting state with a source) does transition the phase to ready — the
store function enforces no minimum-size threshold. -/
theorem C3_counterexample :
    (DragState.completeSelection ⟨1/10, 1/10, 1/200, 1/200⟩ ⟨100, 100, 5, 5⟩
      (some "Selected text") dragSelectingExample).phase = DragPhase.ready := rfl

/-- Claim C3, amended: the minimum-size threshold lives in the
SelectionLayer mouse-up handler, not in completeSelection: when the final
rect is below 1% in either axis, handleMouseUp discards the component's
in-progress selection and never invokes completeSelection, leaving the drag
store (and in particular its phase, which stays selecting rather than
returning to idle) unchanged. -/
theorem C3_below_threshold_discarded (layerRect : Option PanelRect) (width height : ℚ)
    (ls : SelectionLayerState) (st : DragState) (selRect : NormalizedRect)
    (hsel : ls.isSelecting = true) (hrect : ls.selectionRect = some selRect)
    (hsmall : selRect.w < 1/100 ∨ selRect.h < 1/100) :
    (handleMouseUp layerRect width height ls st).2 = st ∧
    (handleMouseUp layerRect width height ls st).2.phase = st.phase ∧
    (handleMouseUp layerRect width height ls st).1.selectionRect = none ∧
    (handleMouseUp layerRect width height ls st).1.isSelecting = false := by
  simp only [handleMouseUp, hsel, hrect]
  rw [if_pos hsmall]
  exact ⟨rfl, rfl, rfl, rfl⟩

/-- Witness for the amended claim C3 on the spec scenario: a 0.5%-size rect
on a 1000 by 1000 page is discarded by handleMouseUp. -/
theorem C3_witness :
    (handleMouseUp (some ⟨0, 0, 1000, 1000⟩) 1000 1000 selLayerExample dragSelectingExample).2
        = dragSelectingExample ∧
    (handleMouseUp (some ⟨0, 0, 1000, 1000⟩) 1000 1000 selLayerExample
        dragSelectingExample).2.phase = dragSelectingExample.phase ∧
    (handleMouseUp (some ⟨0, 0, 1000, 1000⟩) 1000 1000 selLayerExample
        dragSelectingExample).1.selectionRect = none ∧
    (handleMouseUp (some ⟨0, 0, 1000, 1000⟩) 1000 1000 selLayerExample
        dragSelectingExample).1.isSelecting = false :=
  C3_below_threshold_discarded (some ⟨0, 0, 1000, 1000⟩) 1000 1000 selLayerExample
    dragSelectingExample ⟨1/10, 1/10, 1/200, 1/200⟩ rfl rfl (Or.inl (by norm_num))

/-- Claim C4, counterexample: setScale stores its argument unclamped, so the
reachable initial store state followed by setScale 0 leaves the scale
outside every claimed clamp range — degenerate zoom is possible. -/
theorem C4_counterexample :
    ¬ (1/10 ≤ (wsInitialState.setScale 0).scale ∧ (wsInitialState.setScale 0).scale ≤ 10) := by
  norm_num [WorkspaceViewport.setScale, WorkspaceViewport.updateViewportBounds, wsInitialState]

/-- Claim C4, amended: only the operations that compute a clamped scale keep
it in range — zoomAtPoint and fitBounds (when it mutates) clamp to
[0.1, 5] and WorkspaceController.zoom clamps to [0.1, 10]; setScale and
setWorldTransform store the given scale unclamped. -/
theorem C4_clamping_ops (ws : WorkspaceViewport) (r : PanelRect)
    (screenX screenY f padding : ℚ) (bounds : ViewportBounds)
    (cst : WorkspaceControllerState) (w : WorldContainer) (delta : ℚ) (mouse : Option Pt)
    (hrect : ws.panelRect = some r) (hw : cst.world = some w) :
    (1/10 ≤ (ws.zoomAtPoint screenX screenY f).scale ∧
      (ws.zoomAtPoint screenX screenY f).scale ≤ 5) ∧
    ((ws.fitBounds bounds padding).scale = ws.scale ∨
      (1/10 ≤ (ws.fitBounds bounds padding).scale ∧ (ws.fitBounds bounds padding).scale ≤ 5)) ∧
    (1/10 ≤ (cst.zoom delta mouse).scale ∧ (cst.zoom delta mouse).scale ≤ 10) := by
  refine ⟨?_, ?_, ?_⟩
  · simp only [WorkspaceViewport.zoomAtPoint, WorkspaceViewport.screenToWorld, hrect,
      WorkspaceViewport.updateViewportBounds]
    exact ⟨le_max_left _ _, max_le (by norm_num) (min_le_left _ _)⟩
  · simp only [WorkspaceViewport.fitBounds, hrect, WorkspaceViewport.updateViewportBounds]
    split
    · exact Or.inl rfl
    · exact Or.inr ⟨le_max_left _ _, max_le (by norm_num) (min_le_left _ _)⟩
  · simp only [WorkspaceControllerState.zoom, hw]
    cases mouse <;>
      exact ⟨le_min (le_max_right _ _) (by norm_num), min_le_right _ _⟩

/-- Witness for the amended claim C4 at concrete states and arguments. -/
theorem C4_witness :
    (1/10 ≤ (wsExample.zoomAtPoint 50 60 100).scale ∧
      (wsExample.zoomAtPoint 50 60 100).scale ≤ 5) ∧
    ((wsExample.fitBounds ⟨0, 0, 10, 10⟩ 50).scale = wsExample.scale ∨
      (1/10 ≤ (wsExample.fitBounds ⟨0, 0, 10, 10⟩ 50).scale ∧
        (wsExample.fitBounds ⟨0, 0, 10, 10⟩ 50).scale ≤ 5)) ∧
    (1/10 ≤ (controllerExample.zoom 100 (some ⟨5, 5⟩)).scale ∧
      (controllerExample.zoom 100 (some ⟨5, 5⟩)).scale ≤ 10) :=
  C4_clamping_ops wsExample ⟨0, 0, 100, 100⟩ 50 60 100 50 ⟨0, 0, 10, 10⟩
    controllerExample ⟨0, 0, 1⟩ 100 (some ⟨5, 5⟩) rfl rfl

/-- Claim C5, counterexample: the store-level startSelection has no phase
guard: called while the phase is dragging it moves the phase to selecting
(and overwrites the source), so it is not a no-op. -/
theorem C5_counterexample :
    (DragState.startSelection "doc-2" 1 ⟨0, 0⟩ dragDraggingExample).phase
      ≠ DragPhase.dragging := by
  simp [DragState.startSelection]

/-- Claim C5, amended: the one-selection-at-a-time rule is enforced by the
SelectionLayer mouse-down handler, which ignores the event entirely while
the drag phase is dragging — neither the component state nor the drag store
changes; the store-level startSelection itself performs no such guard. -/
theorem C5_mousedown_ignored_while_dragging (button : Nat) (layerRect : Option PanelRect)
    (documentId : String) (pageIndex : Nat) (clientX clientY width height : ℚ)
    (ls : SelectionLayerState) (st : DragState) (h : st.phase = DragPhase.dragging) :
    handleMouseDown button layerRect documentId pageIndex clientX clientY width height ls st
      = (ls, st) := by
  by_cases hb : button = 0 <;> simp [handleMouseDown, hb, h]

/-- Witness for the amended claim C5 at a concrete dragging state. -/
theorem C5_witness :
    handleMouseDown 0 (some ⟨0, 0, 1000, 1000⟩) "doc-2" 1 10 10 1000 1000
      selLayerExample dragDraggingExample = (selLayerExample, dragDraggingExample) :=
  C5_mousedown_ignored_while_dragging 0 (some ⟨0, 0, 1000, 1000⟩) "doc-2" 1 10 10 1000 1000
    selLayerExample dragDraggingExample rfl

/-- Claim C6: whenever the last known drop target is invalid, completeDrag
returns no drag source and resets the store to the initial idle state with
all transient fields cleared — the same final state cancelDrag reaches —
and the mouse-up flow creates no excerpt. -/
theorem C6_invalid_drop_equals_cancel (st : DragState)
    (h : st.dropTarget.isValid = false) :
    st.completeDrag = (none, dragInitialState) ∧
    st.cancelDragFinal = dragInitialState ∧
    (handleEnd st).1 = none ∧
    (handleEnd st).2 = dragInitialState := by
  have h1 : st.completeDrag = (none, dragInitialState) := by
    unfold DragState.completeDrag
    cases hp : st.phase <;> cases hs : st.source <;> simp [DragState.reset, h]
  refine ⟨h1, rfl, ?_, ?_⟩ <;> simp [handleEnd, h1]

/-- Witness for claim C6: a dragging state whose pointer is over no panel
resolves to the initial state with no excerpt. -/
theorem C6_witness :
    dragDraggingExample.completeDrag = (none, dragInitialState) ∧
    dragDraggingExample.cancelDragFinal = dragInitialState ∧
    (handleEnd dragDraggingExample).1 = none ∧
    (handleEnd dragDraggingExample).2 = dragInitialState :=
  C6_invalid_drop_equals_cancel dragDraggingExample rfl

/-- Claim C7: whenever the relevant panel's panelRect is unset, every
transform operation depending on it (pdfToScreen, screenToPdf,
screenToWorld, worldToScreen, pdfToWorld on either missing panel,
anchorToScreen for every anchor kind, pdfRectToScreen, worldRectToScreen,
pageToScreen, screenToPage) returns none — never a fabricated fallback. -/
theorem C7_null_panelRect_unresolvable (pdf : PdfViewport) (ws : WorkspaceViewport)
    (objs : List (String × CanvasObjEntry)) (point : PdfPointIn) (p wp : Pt)
    (documentId : String) (pageIndex : Nat) (nrect : NormalizedRect)
    (rects : List NormalizedRect) (objectId : String) (cp : ConnectionPoint)
    (rin : PdfRectInput) (wrect : WorldRect) (nx ny sx sy : ℚ) :
    CoordinateService.pdfToScreen { pdf with panelRect := none } point = none ∧
    CoordinateService.screenToPdf { pdf with panelRect := none } p documentId = none ∧
    CoordinateService.screenToWorld { ws with panelRect := none } p = none ∧
    CoordinateService.worldToScreen { ws with panelRect := none } wp = none ∧
    CoordinateService.pdfToWorld { pdf with panelRect := none } ws point = none ∧
    CoordinateService.pdfToWorld pdf { ws with panelRect := none } point = none ∧
    anchorToScreen { pdf with panelRect := none } ws objs
      (Anchor.pdfRegion documentId pageIndex nrect) = none ∧
    anchorToScreen { pdf with panelRect := none } ws objs
      (Anchor.pdfText documentId pageIndex rects) = none ∧
    anchorToScreen pdf { ws with panelRect := none } objs
      (Anchor.canvasObject objectId cp) = none ∧
    anchorToScreen pdf { ws with panelRect := none } objs (Anchor.canvasPoint wp) = none ∧
    CoordinateService.pdfRectToScreen { pdf with panelRect := none } rin = none ∧
    CoordinateService.worldRectToScreen { ws with panelRect := none } wrect = none ∧
    PdfViewport.pageToScreen { pdf with panelRect := none } pageIndex nx ny = none ∧
    PdfViewport.screenToPage { pdf with panelRect := none } sx sy = none := by
  refine ⟨rfl, rfl, rfl, rfl, rfl, ?_, ?_, ?_, ?_, rfl, ?_, rfl, ?_, rfl⟩
  · rcases h : CoordinateService.pdfToScreen pdf point with _ | sp <;>
      simp [CoordinateService.pdfToWorld, h]
  · unfold anchorToScreen pdfRegionAnchorToScreen
    cases h : assocGet pdf.pageDimensions pageIndex <;> simp [h]
  · unfold anchorToScreen
    cases rects with
    | nil => rfl
    | cons firstRect rest =>
      unfold pdfRegionAnchorToScreen
      cases h : assocGet pdf.pageDimensions pageIndex <;> simp [h]
  · unfold anchorToScreen canvasObjectAnchorToScreen
    cases h : assocGet objs objectId <;> simp [h, CoordinateService.worldToScreen]
  · unfold CoordinateService.pdfRectToScreen
    cases h : assocGet pdf.pageDimensions rin.pageIndex <;> simp [h]
  · unfold PdfViewport.pageToScreen
    cases h : assocGet pdf.pageDimensions pageIndex <;> simp [h]

/-- Claim C8: with page 0 of rendered height 800, page 1 of height 600, a
10-pixel inter-page gap, zoom 1, zero scroll and a panel at the origin,
pageToScreen 1 0 0 is exactly (0, 810): page 1's top offset is the sum of
all prior pages' height plus gap. -/
theorem C8_pageToScreen_scenario :
    pdfScenarioC8.pageToScreen 1 0 0 = some ⟨0, 810⟩ := by
  norm_num [pdfScenarioC8, pdfInitialState, PdfViewport.setPageDimensions,
    PdfViewport.setPanelRect, PdfViewport.recalculatePageOffsets, PdfViewport.pageToScreen,
    sortNat, insertAsc, assocGet, assocSet, PAGE_GAP, Option.elim]

/-- Claim C9: calculateLinkEndpoints is visible exactly when both anchors
resolve; an unresolved endpoint falls back to the off-screen sentinel
(-1000, -1000) while a resolved one is used as-is; and each InPanel flag
reports, independently, whether the resolved point lies inside either known
panel (false when unresolved). -/
theorem C9_link_endpoints_shape (pdf : PdfViewport) (ws : WorkspaceViewport)
    (objs : List (String × CanvasObjEntry)) (link : Link) :
    (CoordinateService.calculateLinkEndpoints pdf ws objs link).isVisible =
      ((anchorToScreen pdf ws objs link.sourceAnchor).isSome &&
        (anchorToScreen pdf ws objs link.targetAnchor).isSome) ∧
    (CoordinateService.calculateLinkEndpoints pdf ws objs link).source =
      (anchorToScreen pdf ws objs link.sourceAnchor).getD ⟨-1000, -1000⟩ ∧
    (CoordinateService.calculateLinkEndpoints pdf ws objs link).target =
      (anchorToScreen pdf ws objs link.targetAnchor).getD ⟨-1000, -1000⟩ ∧
    (CoordinateService.calculateLinkEndpoints pdf ws objs link).sourceInPanel =
      (anchorToScreen pdf ws objs link.sourceAnchor).elim false
        (fun q => isPointInPdfPanel pdf q || isPointInWorkspacePanel ws q) ∧
    (CoordinateService.calculateLinkEndpoints pdf ws objs link).targetInPanel =
      (anchorToScreen pdf ws objs link.targetAnchor).elim false
        (fun q => isPointInPdfPanel pdf q || isPointInWorkspacePanel ws q) := by
  unfold CoordinateService.calculateLinkEndpoints
  cases anchorToScreen pdf ws objs link.sourceAnchor <;>
    cases anchorToScreen pdf ws objs link.targetAnchor <;>
      simp

/-- Claim C10: registerCanvasObject and unregisterCanvasObject touch only
the object registry — the dirty-link set and the endpoint cache are
unchanged (so cached endpoints survive an unregister untouched); and
updateCanvasObjectPosition never touches the cache and marks links dirty
exactly when the id is already registered. -/
theorem C10_registry_frame_effects (st : CoordState) (id : String) (position : Pt)
    (size : ObjSize) (links : List String) :
    (CoordState.registerCanvasObject id position size st).dirtyLinks = st.dirtyLinks ∧
    (CoordState.registerCanvasObject id position size st).linkEndpointsCache
      = st.linkEndpointsCache ∧
    (CoordState.unregisterCanvasObject id st).dirtyLinks = st.dirtyLinks ∧
    (CoordState.unregisterCanvasObject id st).linkEndpointsCache = st.linkEndpointsCache ∧
    (CoordState.updateCanvasObjectPosition id position links st).linkEndpointsCache
      = st.linkEndpointsCache ∧
    (CoordState.updateCanvasObjectPosition id position links st).dirtyLinks
      = (if (assocGet st.canvasObjects id).isSome then links.foldl setInsert st.dirtyLinks
         else st.dirtyLinks) := by
  refine ⟨rfl, rfl, rfl, rfl, ?_, ?_⟩ <;>
    (unfold CoordState.updateCanvasObjectPosition
     cases assocGet st.canvasObjects id <;>
       simp [CoordState.markAllLinksDirty, CoordState.scheduleUpdate])

end LegalText
